import Mathlib

set_option maxHeartbeats 1000000

/-!
Shallow embedding of the creative-generation backend (src/main.py):
request validation, provider dispatch, defensive extraction of the
provider response, and deterministic fallback output for the image and
video generation operations.
-/

/-- JSON-like values: the shape of a provider response body as produced by
`r.json()` in the source. -/
inductive Json where
  | null : Json
  | bool : Bool → Json
  | num : Int → Json
  | str : String → Json
  | arr : List Json → Json
  | obj : List (String × Json) → Json

/-- First-match association lookup, modelling Python `dict` access
(`k in d`, `d[k]`, `d.get(k)`; parsed JSON objects have unique keys). -/
def lookupField : List (String × Json) → String → Option Json
  | [], _ => none
  | (k', v) :: rest, k => if k' = k then some v else lookupField rest k

/-- `d.get(k)` on a JSON value: `some` on a dict containing the key, else `none`. -/
def Json.lookup : Json → String → Option Json
  | .obj fs, k => lookupField fs k
  | _, _ => none

/-- Python truthiness of a JSON value (`if x:`): `None`, `False`, `0`, `""`,
`[]` and `{}` are falsy, everything else truthy. -/
def Json.truthy : Json → Bool
  | .null => false
  | .bool b => b
  | .num n => decide (n ≠ 0)
  | .str s => decide (s ≠ "")
  | .arr xs => !xs.isEmpty
  | .obj fs => !fs.isEmpty

/-- `d.get(k)` where a missing key yields Python `None` (falsy). -/
def jGet (data : Json) (k : String) : Json :=
  (data.lookup k).getD Json.null

/-- Python `a or b`: the first operand when truthy, otherwise the second. -/
def pyOr (a b : Json) : Json :=
  if a.truthy then a else b

/-- ImageGenRequest (src/main.py:19-23): `prompt` (min length 3),
`count` (default 10, in [1,50]), optional `style` and `references`. -/
structure ImageGenRequest where
  prompt : String
  count : Nat
  style : Option String
  references : List String

/-- The pydantic `Field` constraints declared on `ImageGenRequest`
(src/main.py:20-21): prompt at least 3 characters, count in [1,50]. -/
def ImageGenRequest.valid (r : ImageGenRequest) : Bool :=
  decide (3 ≤ r.prompt.length) && (decide (1 ≤ r.count) && decide (r.count ≤ 50))

/-- ImageGenResponse (src/main.py:26-29). The `images` entries are kept as
the raw JSON values collected by the defensive extraction (strings in every
recognized case). -/
structure ImageGenResponse where
  job_id : String
  images : List Json
  provider : String

/-- VideoGenRequest (src/main.py:32-38): `script` (min length 3),
`aspect_ratio` (default "9:16"), `duration_seconds` (in [4,30], default 8),
optional `voice`, `tone`, `references`. -/
structure VideoGenRequest where
  script : String
  aspect_ratio : String
  duration_seconds : Nat
  voice : Option String
  tone : Option String
  references : List String

/-- The pydantic `Field` constraints declared on `VideoGenRequest`
(src/main.py:33-35). -/
def VideoGenRequest.valid (r : VideoGenRequest) : Bool :=
  decide (3 ≤ r.script.length) &&
    (decide (4 ≤ r.duration_seconds) && decide (r.duration_seconds ≤ 30))

/-- VideoGenResponse (src/main.py:41-44); `video_url` kept as the raw JSON
value assigned by the defensive extraction. -/
structure VideoGenResponse where
  job_id : String
  video_url : Json
  provider : String

/-- Environment configuration (src/main.py:47-48): `KEYAI_API_KEY` is
`none` when the variable is unset, and `KEYAI_BASE` the provider base URL. -/
structure Config where
  apiKey : Option String
  base : String

/-- `if KEYAI_API_KEY:` — a credential is configured iff the key is present
and non-empty. -/
def hasKey (cfg : Config) : Bool :=
  match cfg.apiKey with
  | some k => k != ""
  | none => false

/-- Outcome of the single outbound `requests.post` call: the status code and
the body (`none` when `r.json()` raises on an unparseable body). The whole
call result is `Option HttpResp`, `none` when `requests.post` itself raises
(network error, timeout). -/
structure HttpResp where
  status : Nat
  body : Option Json

/-- The URL value collected from one list item
(src/main.py:125,127): the item must be a dict and its `"url"` value truthy. -/
def urlOfItem (img : Json) : Option Json :=
  match img with
  | .obj _ =>
    match img.lookup "url" with
    | some v => if v.truthy then some v else none
    | _ => none
  | _ => none

/-- The list comprehension `[img.get("url") for img in items if
isinstance(img, dict) and img.get("url")]` (src/main.py:125,127). -/
def extractUrls (items : List Json) : List Json :=
  items.filterMap urlOfItem

/-- Image-response extraction (src/main.py:123-127): if the body is a dict
with a top-level `"images"` list, collect URLs from it; `elif` it has a
top-level `"data"` list, collect URLs from that; otherwise no URLs. -/
def extractImageUrls (data : Json) : List Json :=
  match data with
  | .obj fs =>
    match lookupField fs "images" with
    | some (.arr items) => extractUrls items
    | _ =>
      match lookupField fs "data" with
      | some (.arr items) => extractUrls items
      | _ => []
  | _ => []

/-- Video-response extraction (src/main.py:169-172):
`data.get("url") or data.get("video_url") or ""`, and when that is falsy and
`data["data"]` is a dict, the same two fields inside it. A falsy result is
exactly `Json.str ""`. -/
def extractVideoUrl (data : Json) : Json :=
  match data with
  | .obj fs =>
    let v := pyOr (jGet data "url") (pyOr (jGet data "video_url") (Json.str ""))
    if v.truthy then v
    else
      match lookupField fs "data" with
      | some (.obj dfs) =>
        pyOr (jGet (.obj dfs) "url") (pyOr (jGet (.obj dfs) "video_url") (Json.str ""))
      | _ => v
  | _ => Json.str ""

/-- The mock image URLs (src/main.py:135-140): seed from the prompt with
spaces replaced by `+` and truncated to 40 characters, one picsum URL per
index `0 ≤ i < count`. -/
def fallbackImages (prompt : String) (count : Nat) : List Json :=
  let seed_base := (prompt.replace " " "+").take 40
  (List.range count).map fun i =>
    Json.str ("https://picsum.photos/seed/" ++ seed_base ++ "-" ++ toString i ++ "/768/1024")

/-- The demo video asset constant (src/main.py:180). -/
def FALLBACK_VIDEO_URL : String :=
  "https://interactive-examples.mdn.mozilla.net/media/cc0-videos/flower.mp4"

/-- The provider-attempt portion of `generate_images` (src/main.py:104-133):
the final values of the `provider` and `images` variables just before the
mock fallback check. Any exception (`net = none`), non-200 status,
unparseable body, non-dict body or empty URL extraction leaves
`("mock", [])`. -/
def imageAttempt (cfg : Config) (net : Option HttpResp) (req : ImageGenRequest) :
    String × List Json :=
  if hasKey cfg then
    match net with
    | some r =>
      if r.status = 200 then
        match r.body with
        | some data =>
          let urls := extractImageUrls data
          if urls.isEmpty then ("mock", [])
          else ("key.ai:nano-banana", urls.take req.count)
        | none => ("mock", [])
      else ("mock", [])
    | none => ("mock", [])
  else ("mock", [])

/-- `generate_images` (src/main.py:98-142), for a validated request. The
provider call outcome is the explicit parameter `net` and Python's
`hash` on strings the explicit parameter `h`. -/
def generate_images (cfg : Config) (net : Option HttpResp) (h : String → Int)
    (req : ImageGenRequest) : ImageGenResponse :=
  let pi := imageAttempt cfg net req
  let images := if pi.2.isEmpty then fallbackImages req.prompt req.count else pi.2
  { job_id := "job_img_" ++ toString ((h req.prompt).natAbs % 10000000)
    images := images
    provider := pi.1 }

/-- The provider-attempt portion of `generate_video` (src/main.py:151-176):
the final values of the `provider` and `video_url` variables just before the
fallback check. -/
def videoAttempt (cfg : Config) (net : Option HttpResp) (_req : VideoGenRequest) :
    String × Json :=
  if hasKey cfg then
    match net with
    | some r =>
      if r.status = 200 then
        match r.body with
        | some data =>
          let v := extractVideoUrl data
          if v.truthy then ("key.ai:veo-3.1", v) else ("mock", v)
        | none => ("mock", Json.str "")
      else ("mock", Json.str "")
    | none => ("mock", Json.str "")
  else ("mock", Json.str "")

/-- `generate_video` (src/main.py:146-182), for a validated request. -/
def generate_video (cfg : Config) (net : Option HttpResp) (h : String → Int)
    (req : VideoGenRequest) : VideoGenResponse :=
  let pv := videoAttempt cfg net req
  let video_url := if pv.2.truthy then pv.2 else Json.str FALLBACK_VIDEO_URL
  { job_id := "job_vid_" ++ toString ((h req.script).natAbs % 10000000)
    video_url := video_url
    provider := pv.1 }

/-- Outcome of an endpoint call: a handler result, or the 422 validation
error FastAPI/pydantic raises before the handler runs. -/
inductive ApiResult (α : Type) where
  | ok : α → ApiResult α
  | validationError : ApiResult α
deriving DecidableEq

/-- The `/api/generate/images` endpoint: FastAPI validates the request body
against the declared `Field` constraints (src/main.py:19-23) and rejects it
with a validation error before `generate_images` runs. -/
def imageEndpoint (cfg : Config) (net : Option HttpResp) (h : String → Int)
    (req : ImageGenRequest) : ApiResult ImageGenResponse :=
  if req.valid then .ok (generate_images cfg net h req) else .validationError

/-- The `/api/generate/video` endpoint, analogously (src/main.py:32-38). -/
def videoEndpoint (cfg : Config) (net : Option HttpResp) (h : String → Int)
    (req : VideoGenRequest) : ApiResult VideoGenResponse :=
  if req.valid then .ok (generate_video cfg net h req) else .validationError

/-- Counterexample response body for image extraction: the `"images"` shape
is present (a top-level list of dicts) but yields no non-empty URL, while
the `"data"` shape yields `"b"`. -/
def c1data : Json :=
  .obj [("images", .arr [.obj [("url", .str "")]]),
        ("data", .arr [.obj [("url", .str "b")]])]

/-- Data for the truncation witness: three recognized image URLs. -/
def c6data : Json :=
  .obj [("images", .arr [.obj [("url", .str "a")], .obj [("url", .str "b")],
                         .obj [("url", .str "c")]])]

/-- Claim C1 (counterexample): on a response where the `"images"` shape is
present but yields no non-empty URL while the `"data"` shape yields `"b"`,
extraction does NOT return the URLs from `"data"`: it returns the empty
list, because the `elif "data"` branch is skipped whenever `"images"` is
present with a list value. -/
theorem extractImageUrls_images_shape_blocks_data :
    extractImageUrls c1data = [] ∧ extractImageUrls c1data ≠ [Json.str "b"] := by
  refine ⟨rfl, ?_⟩
  intro hx
  rw [show extractImageUrls c1data = [] from rfl] at hx
  exact List.noConfusion hx

/-- Claim C1 (amended): each recognized shape alone is recovered
(`{"images":[{"url":"a"}]}` yields `["a"]`, `{"data":[{"url":"b"}]}` yields
`["b"]`), but the `"data"` shape is consulted only when `"images"` is absent
or not a list: whenever the top-level `"images"` key holds a list, the
result is exactly the URLs collected from that list, even when that is
empty. -/
theorem extractImageUrls_shapes :
    extractImageUrls (.obj [("images", .arr [.obj [("url", .str "a")]])]) = [Json.str "a"]
    ∧ extractImageUrls (.obj [("data", .arr [.obj [("url", .str "b")]])]) = [Json.str "b"]
    ∧ ∀ (items : List Json) (rest : List (String × Json)),
        extractImageUrls (Json.obj (("images", Json.arr items) :: rest))
          = extractUrls items := by
  refine ⟨rfl, rfl, ?_⟩
  intro items rest
  rfl

/-- Claim C2: with no credential configured, `generate_images` on a valid
request returns exactly `count` images, tagged `provider = "mock"`. -/
theorem generate_images_mock_count (cfg : Config) (net : Option HttpResp)
    (h : String → Int) (req : ImageGenRequest) (hk : cfg.apiKey = none)
    (hp : 3 ≤ req.prompt.length) (hc1 : 1 ≤ req.count) (hc2 : req.count ≤ 50) :
    (generate_images cfg net h req).images.length = req.count
    ∧ (generate_images cfg net h req).provider = "mock" := by
  simp [generate_images, imageAttempt, hasKey, hk, fallbackImages]

/-- Witness for C2 at prompt "a cat in space", count 3. -/
theorem generate_images_mock_count_witness :
    (⟨none, "https://api.key.ai"⟩ : Config).apiKey = none
    ∧ 3 ≤ ("a cat in space" : String).length ∧ 1 ≤ 3 ∧ 3 ≤ 50
    ∧ ((generate_images ⟨none, "https://api.key.ai"⟩ none (fun _ => 0)
          ⟨"a cat in space", 3, none, []⟩).images.length = 3
        ∧ (generate_images ⟨none, "https://api.key.ai"⟩ none (fun _ => 0)
          ⟨"a cat in space", 3, none, []⟩).provider = "mock") :=
  ⟨rfl, by decide, by decide, by decide,
    generate_images_mock_count _ _ _ _ rfl (by decide) (by decide) (by decide)⟩

/-- Claim C3: with no credential configured, `generate_video` on a valid
request returns the fixed placeholder URL, tagged `provider = "mock"`. -/
theorem generate_video_mock_placeholder (cfg : Config) (net : Option HttpResp)
    (h : String → Int) (req : VideoGenRequest) (hk : cfg.apiKey = none)
    (hs : 3 ≤ req.script.length) (hd1 : 4 ≤ req.duration_seconds)
    (hd2 : req.duration_seconds ≤ 30) :
    (generate_video cfg net h req).video_url = Json.str FALLBACK_VIDEO_URL
    ∧ (generate_video cfg net h req).provider = "mock" := by
  simp [generate_video, videoAttempt, hasKey, hk, Json.truthy]

/-- Witness for C3 at script "hello world". -/
theorem generate_video_mock_placeholder_witness :
    (⟨none, "https://api.key.ai"⟩ : Config).apiKey = none
    ∧ 3 ≤ ("hello world" : String).length ∧ 4 ≤ 8 ∧ 8 ≤ 30
    ∧ ((generate_video ⟨none, "https://api.key.ai"⟩ none (fun _ => 0)
          ⟨"hello world", "9:16", 8, none, none, []⟩).video_url
            = Json.str FALLBACK_VIDEO_URL
        ∧ (generate_video ⟨none, "https://api.key.ai"⟩ none (fun _ => 0)
          ⟨"hello world", "9:16", 8, none, none, []⟩).provider = "mock") :=
  ⟨rfl, by decide, by decide, by decide,
    generate_video_mock_placeholder _ _ _ _ rfl (by decide) (by decide) (by decide)⟩

/-- Claim C5: a request with `count` outside [1,50] or a prompt shorter than
3 characters is rejected with a validation error; no result is produced. -/
theorem imageEndpoint_rejects_invalid (cfg : Config) (net : Option HttpResp)
    (h : String → Int) (req : ImageGenRequest)
    (hbad : req.count < 1 ∨ 50 < req.count ∨ req.prompt.length < 3) :
    imageEndpoint cfg net h req = ApiResult.validationError := by
  have hv : req.valid = false := by
    simp [ImageGenRequest.valid]
    omega
  simp [imageEndpoint, hv]

/-- Witness for C5 at count 0. -/
theorem imageEndpoint_rejects_invalid_witness :
    ((0 : Nat) < 1 ∨ 50 < (0 : Nat) ∨ ("valid prompt" : String).length < 3)
    ∧ imageEndpoint ⟨none, "https://api.key.ai"⟩ none (fun _ => 0)
        ⟨"valid prompt", 0, none, []⟩ = ApiResult.validationError :=
  ⟨Or.inl (by decide),
    imageEndpoint_rejects_invalid _ _ _ _ (Or.inl (by decide))⟩

/-- Claim C9: job identifiers are the `"job_img_"` / `"job_vid_"` tag
followed by the decimal representation of a non-negative integer strictly
below 10,000,000 derived from the prompt or script text by hashing. -/
theorem job_id_format (cfg : Config) (net : Option HttpResp) (h : String → Int)
    (reqI : ImageGenRequest) (reqV : VideoGenRequest) :
    ((generate_images cfg net h reqI).job_id
        = "job_img_" ++ toString ((h reqI.prompt).natAbs % 10000000)
      ∧ (h reqI.prompt).natAbs % 10000000 < 10000000)
    ∧ ((generate_video cfg net h reqV).job_id
        = "job_vid_" ++ toString ((h reqV.script).natAbs % 10000000)
      ∧ (h reqV.script).natAbs % 10000000 < 10000000) :=
  ⟨⟨rfl, Nat.mod_lt _ (by norm_num)⟩, ⟨rfl, Nat.mod_lt _ (by norm_num)⟩⟩

/-- Claim C4: for valid requests, whatever the configuration and whatever
the provider replied, `generate_images` never returns an empty images list
and `generate_video` never returns a falsy (in particular never an empty
string) video URL. -/
theorem results_fully_populated (cfg : Config) (net : Option HttpResp)
    (h : String → Int) (reqI : ImageGenRequest) (reqV : VideoGenRequest)
    (hp : 3 ≤ reqI.prompt.length) (hc1 : 1 ≤ reqI.count) (hc2 : reqI.count ≤ 50)
    (hs : 3 ≤ reqV.script.length) (hd1 : 4 ≤ reqV.duration_seconds)
    (hd2 : reqV.duration_seconds ≤ 30) :
    (generate_images cfg net h reqI).images ≠ []
    ∧ ((generate_video cfg net h reqV).video_url).truthy = true := by
  constructor
  · simp only [generate_images]
    cases hpi : (imageAttempt cfg net reqI).2 with
    | nil =>
      simp only [hpi, List.isEmpty_nil, if_pos]
      simp only [fallbackImages]
      intro hx
      rw [List.map_eq_nil_iff, List.range_eq_nil] at hx
      omega
    | cons a l => simp [hpi]
  · simp only [generate_video]
    cases htr : ((videoAttempt cfg net reqV).2).truthy with
    | true => simp [htr]
    | false =>
      simp only [htr, Bool.false_eq_true, if_false]
      decide

/-- Witness for C4 with no credential configured. -/
theorem results_fully_populated_witness :
    (generate_images ⟨none, "https://api.key.ai"⟩ none (fun _ => 0)
        ⟨"a cat in space", 3, none, []⟩).images ≠ []
    ∧ ((generate_video ⟨none, "https://api.key.ai"⟩ none (fun _ => 0)
        ⟨"hello world", "9:16", 8, none, none, []⟩).video_url).truthy = true :=
  results_fully_populated _ _ _ _ _ (by decide) (by decide) (by decide)
    (by decide) (by decide) (by decide)

/-- Claim C6: on a successful provider reply whose extraction yields URLs,
the returned images are exactly the extracted URLs truncated to `count`:
the list has exactly `count` entries whenever the provider returned at
least `count`, and is shorter only when the provider returned fewer. -/
theorem images_truncated_to_count (cfg : Config) (r : HttpResp) (data : Json)
    (h : String → Int) (req : ImageGenRequest) (hk : hasKey cfg = true)
    (hst : r.status = 200) (hb : r.body = some data) (hc : 1 ≤ req.count)
    (hne : extractImageUrls data ≠ []) :
    (generate_images cfg (some r) h req).images = (extractImageUrls data).take req.count
    ∧ (req.count ≤ (extractImageUrls data).length
        → (generate_images cfg (some r) h req).images.length = req.count)
    ∧ ((generate_images cfg (some r) h req).images.length < req.count
        → (extractImageUrls data).length < req.count) := by
  have hemp : (extractImageUrls data).isEmpty = false := by
    cases hx : extractImageUrls data with
    | nil => exact absurd hx hne
    | cons a l => rfl
  have htake : ((extractImageUrls data).take req.count).isEmpty = false := by
    obtain ⟨a, l, hx⟩ := List.exists_cons_of_ne_nil hne
    obtain ⟨n, hn⟩ : ∃ n, req.count = n + 1 := ⟨req.count - 1, by omega⟩
    rw [hx, hn]
    rfl
  have himg : (generate_images cfg (some r) h req).images
      = (extractImageUrls data).take req.count := by
    simp [generate_images, imageAttempt, hk, hst, hb, hemp, htake]
  refine ⟨himg, ?_, ?_⟩
  · intro hle
    rw [himg, List.length_take]
    omega
  · intro hlt
    rw [himg, List.length_take] at hlt
    omega

/-- Witness for C6: three extracted URLs, count 2. -/
theorem images_truncated_to_count_witness :
    (generate_images ⟨some "k", "https://api.key.ai"⟩ (some ⟨200, some c6data⟩)
        (fun _ => 0) ⟨"abc", 2, none, []⟩).images = (extractImageUrls c6data).take 2 :=
  (images_truncated_to_count ⟨some "k", "https://api.key.ai"⟩ ⟨200, some c6data⟩
    c6data (fun _ => 0) ⟨"abc", 2, none, []⟩ (by decide) rfl rfl (by decide)
    (by rw [show extractImageUrls c6data
          = [Json.str "a", Json.str "b", Json.str "c"] from rfl]
        simp)).1

/-- Claim C7: with no credential configured, the images returned by
`generate_images` depend only on the prompt and the count: two calls with
identical prompt and count agree, whatever the rest of the environment and
request. -/
theorem fallback_images_deterministic (cfg cfg' : Config) (net net' : Option HttpResp)
    (h h' : String → Int) (req req' : ImageGenRequest)
    (hk : cfg.apiKey = none) (hk' : cfg'.apiKey = none)
    (hp : req.prompt = req'.prompt) (hc : req.count = req'.count) :
    (generate_images cfg net h req).images = (generate_images cfg' net' h' req').images := by
  simp [generate_images, imageAttempt, hasKey, hk, hk', hp, hc]

/-- Witness for C7: same prompt and count, different style, hash and net. -/
theorem fallback_images_deterministic_witness :
    (generate_images ⟨none, "https://api.key.ai"⟩ none (fun _ => 0)
        ⟨"a cat", 2, none, []⟩).images
      = (generate_images ⟨none, "https://other"⟩ (some ⟨200, none⟩) (fun _ => 7)
        ⟨"a cat", 2, some "anime", []⟩).images :=
  fallback_images_deterministic _ _ _ _ _ _ _ _ rfl rfl rfl rfl

/-- Appending the same strings on both sides is injective in the middle. -/
theorem string_append_inj_mid (a d x y : String)
    (hxy : (a ++ x) ++ d = (a ++ y) ++ d) : x = y := by
  have h2 := congrArg String.data hxy
  simp only [String.data_append] at h2
  exact String.ext (List.append_cancel_left (List.append_cancel_right h2))

/-- Decimal rendering is injective on naturals below 50 (the maximum
validated image count). -/
theorem toString_nat_inj_50 :
    ∀ i j : Fin 50, toString i.val = toString j.val → i = j := by decide

/-- Claim C8: the fallback image list is exactly one picsum URL per index,
parameterized by the seed `(prompt.replace " " "+").take 40` (spaces
replaced, truncated to 40 characters) and the index; it has exactly `count`
entries, its URLs are pairwise distinct, and the images `generate_images`
returns on the fallback path are exactly this list, hence reproducible from
the prompt and count alone. -/
theorem fallback_seed_and_distinct (prompt : String) (count : Nat) (hc : count ≤ 50) :
    fallbackImages prompt count
      = (List.range count).map (fun i =>
          Json.str ("https://picsum.photos/seed/" ++ (prompt.replace " " "+").take 40
            ++ "-" ++ toString i ++ "/768/1024"))
    ∧ (fallbackImages prompt count).length = count
    ∧ (fallbackImages prompt count).Nodup
    ∧ ∀ (cfg : Config) (net : Option HttpResp) (h : String → Int)
        (req : ImageGenRequest), cfg.apiKey = none → req.prompt = prompt
        → req.count = count
        → (generate_images cfg net h req).images = fallbackImages prompt count := by
  refine ⟨rfl, by simp [fallbackImages], ?_, ?_⟩
  · rw [show fallbackImages prompt count
        = (List.range count).map (fun i =>
            Json.str ("https://picsum.photos/seed/" ++ (prompt.replace " " "+").take 40
              ++ "-" ++ toString i ++ "/768/1024")) from rfl]
    refine List.Nodup.map_on ?_ (List.nodup_range count)
    intro x hx y hy hfxy
    have hx50 : x < 50 := lt_of_lt_of_le (List.mem_range.mp hx) hc
    have hy50 : y < 50 := lt_of_lt_of_le (List.mem_range.mp hy) hc
    have hs12 : ("https://picsum.photos/seed/" ++ (prompt.replace " " "+").take 40
          ++ "-" ++ toString x ++ "/768/1024")
        = ("https://picsum.photos/seed/" ++ (prompt.replace " " "+").take 40
          ++ "-" ++ toString y ++ "/768/1024") := by
      injection hfxy
    have ht := string_append_inj_mid _ _ _ _ hs12
    have := toString_nat_inj_50 ⟨x, hx50⟩ ⟨y, hy50⟩ ht
    exact congrArg Fin.val this
  · intro cfg net h req hk hp hcnt
    simp [generate_images, imageAttempt, hasKey, hk, hp, hcnt]

/-- Witness for C8 at prompt "a cat in space", count 3. -/
theorem fallback_seed_and_distinct_witness :
    (fallbackImages "a cat in space" 3).length = 3
    ∧ (fallbackImages "a cat in space" 3).Nodup :=
  ⟨(fallback_seed_and_distinct "a cat in space" 3 (by decide)).2.1,
   (fallback_seed_and_distinct "a cat in space" 3 (by decide)).2.2.1⟩

/-- Claim C10: with a credential configured, any status code other than
exactly 200 (201 included) makes both operations ignore the body entirely
(the result does not depend on it) and return fallback output tagged
`provider = "mock"`. -/
theorem non_200_never_parsed (cfg : Config) (status : Nat) (b b' : Option Json)
    (h : String → Int) (reqI : ImageGenRequest) (reqV : VideoGenRequest)
    (hk : hasKey cfg = true) (hst : status ≠ 200) :
    (generate_images cfg (some ⟨status, b⟩) h reqI
        = generate_images cfg (some ⟨status, b'⟩) h reqI
      ∧ (generate_images cfg (some ⟨status, b⟩) h reqI).provider = "mock"
      ∧ (generate_images cfg (some ⟨status, b⟩) h reqI).images
          = fallbackImages reqI.prompt reqI.count)
    ∧ (generate_video cfg (some ⟨status, b⟩) h reqV
        = generate_video cfg (some ⟨status, b'⟩) h reqV
      ∧ (generate_video cfg (some ⟨status, b⟩) h reqV).provider = "mock"
      ∧ (generate_video cfg (some ⟨status, b⟩) h reqV).video_url
          = Json.str FALLBACK_VIDEO_URL) := by
  simp [generate_images, generate_video, imageAttempt, videoAttempt, hk, hst,
    Json.truthy]

/-- Witness for C10: status 201 with a well-formed body that would have
yielded URLs is still treated as a failure. -/
theorem non_200_never_parsed_witness :
    (generate_images ⟨some "k", "https://api.key.ai"⟩ (some ⟨201, some c6data⟩)
        (fun _ => 0) ⟨"abc", 2, none, []⟩).provider = "mock"
    ∧ (generate_video ⟨some "k", "https://api.key.ai"⟩ (some ⟨201, some c6data⟩)
        (fun _ => 0) ⟨"hello world", "9:16", 8, none, none, []⟩).video_url
      = Json.str FALLBACK_VIDEO_URL :=
  ⟨(non_200_never_parsed ⟨some "k", "https://api.key.ai"⟩ 201 (some c6data)
      (some c6data) (fun _ => 0) ⟨"abc", 2, none, []⟩
      ⟨"hello world", "9:16", 8, none, none, []⟩ (by decide) (by decide)).1.2.1,
   (non_200_never_parsed ⟨some "k", "https://api.key.ai"⟩ 201 (some c6data)
      (some c6data) (fun _ => 0) ⟨"abc", 2, none, []⟩
      ⟨"hello world", "9:16", 8, none, none, []⟩ (by decide) (by decide)).2.2.2⟩
